import Mathlib

/-!
Shallow embedding of the room-mapping route planner and mission executor of
this repository: `room_mapping/path_planner.py`, `room_mapping/route_to_agents.py`
and `room_mapping/mission_executor_agent.py`.

Pure Python functions become Lean functions over explicit data; the executor's
per-tick method becomes a state-transition function.  The Navigation, Door and
Wall sub-agents live in modules that are not part of this tree
(`src.agents.*`); per the specification they are external capability
providers, so they are abstracted by their contract: the action value they
return on a tick (which may be a raised error) and their completion flag.
Registry data (`unified_rooms.json`) is modelled as explicit association
lists, preserving the insertion order that Python dict iteration exposes.
Python floats are modelled as rationals; grid tile codes are integers.
-/

namespace RoomMapping

/-- Modelled from the spec: the numeric action constants come from
`src.environments.base.constants`, which is not part of this tree; the spec
only speaks of stay / forward / turn actions, so actions are abstract symbols
(`other` stands for any action an external sub-agent may produce). -/
inductive Action where
  | stay
  | forward
  | turnRight
  | other (code : Int)
deriving DecidableEq, Repr

/-! ## RoomScanner (`mission_executor_agent.py`, class `RoomScanner`) -/

/-- `RoomScanner.scan_steps`; the unused `scan_pattern` / `scan_index` fields
carry no behavior and are omitted. -/
structure RoomScanner where
  scan_steps : Nat
deriving DecidableEq, Repr

/-- `RoomScanner.max_scan_steps`. -/
def max_scan_steps : Nat := 30

/-- `RoomScanner.get_scan_action`: increments `scan_steps`, then stay once the
budget is reached, else turn right on every fourth tick, else forward. -/
def get_scan_action (s : RoomScanner) : RoomScanner × Action :=
  let s2 : RoomScanner := ⟨s.scan_steps + 1⟩
  if max_scan_steps ≤ s2.scan_steps then (s2, Action.stay)
  else if s2.scan_steps % 4 = 0 then (s2, Action.turnRight)
  else (s2, Action.forward)

/-- `RoomScanner.reset`. -/
def scanner_reset : RoomScanner := ⟨0⟩

/-- `RoomScanner.is_complete`. -/
def scanner_complete (s : RoomScanner) : Bool := max_scan_steps ≤ s.scan_steps

/-- State of the scanner after `k` ticks from a fresh reset. -/
def run_scanner : Nat → RoomScanner
  | 0 => scanner_reset
  | k + 1 => (get_scan_action (run_scanner k)).1

/-- The action the scanner returns on its `k+1`-st tick after a reset. -/
def scan_action_at (k : Nat) : Action := (get_scan_action (run_scanner k)).2

/-! ## Room registry and path planner (`path_planner.py`) -/

/-- Shape of the `doors` / `entries` fields in `unified_rooms.json`: either a
single `[x, y]` pair, a list of pairs, or absent (`add_xy_or_list` in
`path_planner.py` ignores any other shape, which is not modelled). -/
inductive CoordField where
  | pair (x y : Int)
  | coords (ps : List (Int × Int))
  | absent
deriving DecidableEq, Repr

/-- One room entry of the registry as `path_planner.py` reads it. -/
structure RoomJson where
  bbox : List Int
  doors : CoordField
  entries : CoordField
deriving DecidableEq, Repr

/-- Half-open bbox membership test used by `get_room_at`; a bbox that is not a
4-list never contains a point (`len(bbox) == 4` guard). -/
def bbox_contains : List Int → Int → Int → Bool
  | [x1, y1, x2, y2], x, y => decide (x1 ≤ x ∧ x < x2 ∧ y1 ≤ y ∧ y < y2)
  | _, _, _ => false

/-- `PathPlanner.get_room_at`: first room (in registry order) whose bbox
contains the point, else none. -/
def get_room_at (rooms : List (String × RoomJson)) (x y : Int) : Option String :=
  match rooms.find? (fun kv => bbox_contains kv.2.bbox x y) with
  | some kv => some kv.1
  | none => none

/-- A room-transition waypoint as emitted by `identify_key_points`. -/
structure Waypoint where
  point : Int × Int
  room : Option String
  wtype : String
deriving DecidableEq, Repr

/-- Contiguous-substring test on character lists (Python's `t in s`). -/
def char_sub (t : List Char) : List Char → Bool
  | [] => t.isEmpty
  | c :: rest => List.isPrefixOf t (c :: rest) || char_sub t rest

/-- Python's `t in s` on strings. -/
def str_contains (s t : String) : Bool := char_sub t.data s.data

/-- Python's `str.lower()` (ASCII case folding, character by character). -/
def str_lower (s : String) : String := ⟨s.data.map Char.toLower⟩

/-- Python's `s.startswith(t)`. -/
def str_startsWith (s t : String) : Bool := List.isPrefixOf t.data s.data

/-- Tag for a cell entering a named room: `enter_hallway` when the lowercased
name contains `hall`, else `enter_room`. -/
def enter_tag (room : String) : String :=
  if str_contains (str_lower room) "hall" then "enter_hallway" else "enter_room"

/-- The scan loop of `identify_key_points` (lines `for i in range(1, len(path))`):
`prev` is `path[i-1]`, `lastRoom` the running `last_room`.  An `exit_room` key
is emitted only when the departed room is truthy (a nonempty name), an enter
key only when the entered room is truthy, exactly as the Python truthiness
tests `if last_room:` / `if room:` behave. -/
def key_scan (rooms : List (String × RoomJson)) :
    (Int × Int) → Option String → List (Int × Int) → List Waypoint
  | _, _, [] => []
  | prev, lastRoom, c :: cs =>
    let r := get_room_at rooms c.1 c.2
    if r = lastRoom then
      key_scan rooms c lastRoom cs
    else
      (match lastRoom with
       | some lr => if lr.data.isEmpty then [] else [⟨prev, some lr, "exit_room"⟩]
       | none => [])
      ++ (match r with
          | some rn => if rn.data.isEmpty then [] else [⟨c, some rn, enter_tag rn⟩]
          | none => [])
      ++ key_scan rooms c r cs

/-- `PathPlanner.identify_key_points`: a `start` key for the first cell, the
scan over consecutive room changes, and a `goal` key for the last cell. -/
def identify_key_points (rooms : List (String × RoomJson)) (path : List (Int × Int)) :
    List Waypoint :=
  match path with
  | [] => []
  | p0 :: rest =>
    let r0 := get_room_at rooms p0.1 p0.2
    let lastp := rest.getLastD p0
    ⟨p0, r0, "start"⟩ :: key_scan rooms p0 r0 rest
      ++ [⟨lastp, get_room_at rooms lastp.1 lastp.2, "goal"⟩]

/-- `GRID_RES = 0.15` meters per cell, as an exact rational. -/
def grid_res : ℚ := 15 / 100

/-- Python's `round(x, 2)`, modelled as rounding to a multiple of 1/100
(Python uses float banker's rounding; the tie-breaking mode is irrelevant to
every claim proved here). -/
def round2 (q : ℚ) : ℚ := (round (q * 100) : ℚ) / 100

/-- Manhattan grid distance between waypoints, scaled by `GRID_RES`
(`calc_distances` body). -/
def seg_distance (p1 p2 : Int × Int) : ℚ :=
  (((p2.1 - p1.1).natAbs + (p2.2 - p1.2).natAbs : Nat) : ℚ) * grid_res

/-- One entry of the `segments` list produced by `calc_distances`. -/
structure Segment where
  src : Option String
  dst : Option String
  distance_m : ℚ
deriving DecidableEq, Repr

/-- The loop of `PathPlanner.calc_distances`: per-segment rounded distances,
plus the unrounded running total. -/
def calc_distances_aux : List Waypoint → List Segment × ℚ
  | k1 :: k2 :: rest =>
    let d := seg_distance k1.point k2.point
    let rec_res := calc_distances_aux (k2 :: rest)
    (⟨k1.room, k2.room, round2 d⟩ :: rec_res.1, d + rec_res.2)
  | _ => ([], 0)

/-- `PathPlanner.calc_distances`: segments plus the rounded total. -/
def calc_distances (keys : List Waypoint) : List Segment × ℚ :=
  let r := calc_distances_aux keys
  (r.1, round2 r.2)

/-- Grid lookup `grid[y, x]`; out-of-range reads return the blocked code 1
(every call site in the embedded code is guarded by an explicit bounds check,
as in the source). -/
def grid_at (grid : List (List Int)) (x y : Int) : Int :=
  match grid.get? y.toNat with
  | some row => (row.get? x.toNat).getD 1
  | none => 1

/-- `grid.shape[0]` (the grid file is rectangular; numpy enforces this). -/
def grid_height (grid : List (List Int)) : Nat := grid.length

/-- `grid.shape[1]`. -/
def grid_width (grid : List (List Int)) : Nat := (grid.headD []).length

/-- `add_xy_or_list`: flatten a `doors`/`entries` field into coordinate pairs. -/
def add_xy_or_list : CoordField → List (Int × Int)
  | .pair x y => [(x, y)]
  | .coords ps => ps
  | .absent => []

/-- `PathPlanner._collect_target_cells`: declared door/entry coordinates of
the room, kept only when in bounds and carrying grid code 3 or 8. -/
def collect_target_cells (rooms : List (String × RoomJson)) (grid : List (List Int))
    (room_name : String) : List (Int × Int) :=
  let targets :=
    match rooms.lookup room_name with
    | some r => add_xy_or_list r.doors ++ add_xy_or_list r.entries
    | none => []
  targets.filter (fun c =>
    decide (0 ≤ c.1 ∧ c.1 < (grid_width grid : Int) ∧ 0 ≤ c.2 ∧ c.2 < (grid_height grid : Int)
      ∧ (grid_at grid c.1 c.2 = 3 ∨ grid_at grid c.1 c.2 = 8)))

/-- `range(lo, hi)` over integers. -/
def int_range (lo hi : Int) : List Int :=
  (List.range (hi - lo).toNat).map (fun i => lo + Int.ofNat i)

/-- The bbox-interior fallback of `PathPlanner.plan` (lines building `cand`):
every in-bounds cell of the goal room's bbox whose grid code is 0, 3 or 8,
in row-major order. -/
def bbox_walkable_cells (rooms : List (String × RoomJson)) (grid : List (List Int))
    (room_name : String) : List (Int × Int) :=
  match rooms.lookup room_name with
  | none => []
  | some r =>
    match r.bbox with
    | [x1, y1, x2, y2] =>
      (int_range y1 y2).flatMap (fun yy =>
        (int_range x1 x2).filterMap (fun xx =>
          if 0 ≤ yy ∧ yy < (grid_height grid : Int) ∧ 0 ≤ xx ∧ xx < (grid_width grid : Int)
              ∧ (grid_at grid xx yy = 0 ∨ grid_at grid xx yy = 3 ∨ grid_at grid xx yy = 8) then
            some (xx, yy)
          else none))
    | _ => []

/-- The target loop of `PathPlanner.plan`: run the search to each candidate in
order, keeping the first path of strictly minimal length (`best_len` starts at
infinity; empty results are discarded).  The A* search itself orders its heap
by floating-point keys, so it enters the embedding as an explicit function
argument `astar`. -/
def find_best_path (astar : (Int × Int) → (Int × Int) → List (Option String) → List (Int × Int))
    (start : Int × Int) (allowed : List (Option String)) :
    List (Int × Int) → Option (List (Int × Int)) → Option (List (Int × Int))
  | [], best => best
  | t :: ts, best =>
    let path := astar start t allowed
    let best2 :=
      match best with
      | none => if path = [] then none else some path
      | some b => if path ≠ [] ∧ path.length < b.length then some path else best
    find_best_path astar start allowed ts best2

/-- Result dictionary of `PathPlanner.plan` (the wall-clock timestamp field is
outside a shallow embedding and carries no planning content). -/
structure PlanResult where
  waypoints : List Waypoint
  segments : List Segment
  total_distance_m : ℚ
deriving DecidableEq, Repr

/-- `PathPlanner` object state: the loaded registry and the optional grid. -/
structure PathPlannerState where
  rooms : List (String × RoomJson)
  grid : Option (List (List Int))
deriving Repr

/-- `PathPlanner.plan`: allow-list construction, validated door/entry targets,
bbox fallback, best-path selection, and key-point / distance compilation. -/
def plan (astar : (Int × Int) → (Int × Int) → List (Option String) → List (Int × Int))
    (p : PathPlannerState) (start : Int × Int) (goal_room : String) : Option PlanResult :=
  match p.grid with
  | none => none
  | some grid =>
    let allowed : List (Option String) := [some "Open Space", some "hallway", some goal_room, none]
    let declared := collect_target_cells p.rooms grid goal_room
    let door_targets := if declared = [] then bbox_walkable_cells p.rooms grid goal_room else declared
    if door_targets = [] then none
    else
      match find_best_path astar start allowed door_targets none with
      | none => none
      | some best =>
        let keys := identify_key_points p.rooms best
        let r := calc_distances keys
        some ⟨keys, r.1, r.2⟩

/-! ## Route compiler (`route_to_agents.py`) -/

/-- `has_doors`: the destination room's `doors` field is a nonempty list.
(The `entries` field is not consulted by `route_to_agents.py`.)  A `None`
room key looks up nothing, exactly as `rooms.get(None, {})` does. -/
def has_doors (rooms : List (String × RoomJson)) (room_name : Option String) : Bool :=
  match room_name with
  | none => false
  | some rn =>
    match rooms.lookup rn with
    | none => false
    | some r =>
      match r.doors with
      | .pair _ _ => true
      | .coords ps => !ps.isEmpty
      | .absent => false

/-- Mission steps as built by `step_nav` / `step_door` / `step_wall` /
`step_scan`. -/
inductive AgentStep where
  | nav (n : Nat) (from_room : Option String) (from_point : Int × Int)
      (to_room : Option String) (to_point : Int × Int) (entrance : Bool)
  | door (n : Nat) (room : Option String)
  | wall (n : Nat) (room : Option String)
  | scan (n : Nat) (room : Option String) (objective : Option String)
deriving DecidableEq, Repr

/-- The waypoint loop of `build_agent_plan` (`for i in range(1, len(waypoints))`):
on each room change append a Navigation step, then a Door step when the
destination room has doors; returns the steps together with the final value of
the running counter `n`. -/
def compile_transitions (rooms : List (String × RoomJson)) :
    List Waypoint → Option String → (Int × Int) → Nat → List AgentStep × Nat
  | [], _, _, n => ([], n)
  | wp :: rest, cur, seg_start, n =>
    if wp.room = cur then
      compile_transitions rooms rest cur seg_start n
    else
      let entrance := str_startsWith (str_lower wp.wtype) "enter_"
      let navStep := AgentStep.nav n cur seg_start wp.room wp.point entrance
      if has_doors rooms wp.room then
        let r := compile_transitions rooms rest wp.room wp.point (n + 2)
        (navStep :: AgentStep.door (n + 1) wp.room :: r.1, r.2)
      else
        let r := compile_transitions rooms rest wp.room wp.point (n + 1)
        (navStep :: r.1, r.2)

/-- `build_agent_plan`: fewer than two waypoints compile to the trivial
already-in-room plan, otherwise to the transition steps followed by the
terminal (optional Wall and) Scan step.  `include_wall` models the module
option `INCLUDE_WALL_STEP` (the source fixes it to `False`). -/
def build_agent_plan (include_wall : Bool) (rooms : List (String × RoomJson))
    (waypoints : List Waypoint) (target : Option String) : List AgentStep :=
  match waypoints with
  | [] =>
    (if include_wall then [AgentStep.wall 1 (some "unknown")] else [])
      ++ [AgentStep.scan (if include_wall then 2 else 1) (some "unknown") target]
  | [w] =>
    (if include_wall then [AgentStep.wall 1 w.room] else [])
      ++ [AgentStep.scan (if include_wall then 2 else 1) w.room target]
  | w0 :: w1 :: rest =>
    let r := compile_transitions rooms (w1 :: rest) w0.room w0.point 1
    let final_room := ((w1 :: rest).getLastD w0).room
    r.1 ++ (if include_wall then [AgentStep.wall r.2 final_room] else [])
      ++ [AgentStep.scan (if include_wall then r.2 + 1 else r.2) final_room target]

/-! ## Mission executor (`mission_executor_agent.py`, class `MissionExecutorAgent`)

The per-tick entry point `get_actions` becomes a state-transition function.
External sub-agents (Navigation / Door / Wall, from `src.agents.*`, not part
of this tree) are abstracted by the tick input: `subAct` is the action the
invoked external sub-agent returns this tick (or the error it raises), and
`subComplete` is whether its `execution_state` reads COMPLETED.  The mission
file polling (`load_mission`) is file I/O and is outside the embedding: the
mission is already held in the state. -/

/-- `AgentType` enum. -/
inductive AgentType where
  | navigation
  | door
  | scan
  | wall
  | unknown
deriving DecidableEq, Repr

/-- `MissionStep` dataclass. -/
structure MissionStep where
  step_number : Nat
  agent_type : AgentType
  action_description : String
  target_location : Option String
  completed : Bool
deriving DecidableEq, Repr

/-- One value of the executor's `room_data` dict (keys are stored lowercased
by `load_room_data`).  The raw `doors` JSON value is read by
`get_door_position` through indices 0 and 1, i.e. as a flat `[x, y]` list. -/
structure RoomInfo where
  bbox : List Int
  center : Int × Int
  doors : List Int
  camera : List Int
deriving DecidableEq, Repr

/-- The executor's loaded room tables: `room_data` and `room_locations`
(association lists in dict insertion order). -/
structure RoomData where
  room_data : List (String × RoomInfo)
  room_locations : List (String × (Int × Int))
deriving Repr

/-- The `room_mapping` alias dict inside `get_door_position`. -/
def room_name_aliases : List (String × String) :=
  [("moshe", "moshe\x27s office"),
   ("moshe\x27s", "moshe\x27s office"),
   ("inbal", "inbal\x27s office"),
   ("inbal\x27s", "inbal\x27s office"),
   ("yaniv", "yaniv oren\x27s office"),
   ("yaniv oren", "yaniv oren\x27s office"),
   ("yaniv oren\x27s", "yaniv oren\x27s office"),
   ("mamad", "mamad"),
   ("open space", "open space"),
   ("open", "open space"),
   ("hallway", "hallway"),
   ("hall", "hallway")]

/-- `MissionExecutorAgent.get_door_position`: lowercase, apply aliases, exact
lookup then first partial (substring either way) match, then read the first
two elements of the `doors` value. -/
def get_door_position (rd : RoomData) (room_name : String) : Option (Int × Int) :=
  let rl0 := str_lower room_name
  let rl1 :=
    match room_name_aliases.lookup rl0 with
    | some full => full
    | none => rl0
  let key :=
    if (rd.room_data.lookup rl1).isSome then some rl1
    else
      match rd.room_data.find? (fun kv => str_contains kv.1 rl1 || str_contains rl1 kv.1) with
      | some kv => some kv.1
      | none => none
  match key with
  | none => none
  | some k =>
    match rd.room_data.lookup k with
    | none => none
    | some info =>
      match info.doors with
      | d0 :: d1 :: _ => some (d0, d1)
      | _ => none

/-- `MissionExecutorAgent.get_room_coordinates`. -/
def get_room_coordinates (rd : RoomData) (room_name : String) : Option (Int × Int) :=
  if room_name.data.isEmpty then none
  else
    let rl := str_lower room_name
    match rd.room_locations.lookup rl with
    | some c => some c
    | none =>
      match rd.room_locations.find? (fun kv => str_contains kv.1 rl || str_contains rl kv.1) with
      | some kv => some kv.2
      | none => none

/-- Manhattan tile distance. -/
def manhattan (a b : Int × Int) : Nat := (a.1 - b.1).natAbs + (a.2 - b.2).natAbs

/-- Tile codes the executor treats as accessible in the observed global map. -/
def accessible_codes : List Int := [-1, 0, 2, 4]

/-- `MissionExecutorAgent.get_closest_room_tile`: accessible tiles of the
room's bbox clipped to the observed map, closest by Manhattan distance (first
strict minimum in row-major order); falls back to the room center, or to
`get_room_coordinates` for an unknown room.  A bbox that is not a 4-list
short-circuits to the center (the source guards `len(bbox) < 4`; a longer
bbox would fail Python's 4-way unpacking, a shape no claim exercises). -/
def get_closest_room_tile (rd : RoomData) (gmap : Option (List (List Int)))
    (room_name : String) (current_pos : Int × Int) : Option (Int × Int) :=
  let rl := str_lower room_name
  match rd.room_data.lookup rl with
  | none => get_room_coordinates rd room_name
  | some info =>
    match info.bbox with
    | [x1, y1, x2, y2] =>
      match gmap with
      | none => some info.center
      | some gm =>
        let ys := int_range (max 0 y1) (min (grid_height gm : Int) y2)
        let xs := int_range (max 0 x1) (min (grid_width gm : Int) x2)
        let tiles := ys.flatMap (fun y => xs.filterMap (fun x =>
          if grid_at gm x y ∈ accessible_codes then some (x, y) else none))
        match tiles with
        | [] => some info.center
        | t0 :: ts =>
          some (ts.foldl
            (fun best t => if manhattan t current_pos < manhattan best current_pos then t else best)
            t0)
    | _ => some info.center

/-- `MissionExecutorAgent.is_near_door`: with no resolvable door the agent is
assumed ready (`return True`); otherwise Manhattan distance within the bound. -/
def is_near_door (rd : RoomData) (current_pos : Int × Int) (room_name : String)
    (max_distance : Nat) : Bool :=
  match get_door_position rd room_name with
  | none => true
  | some dp => decide (manhattan current_pos dp ≤ max_distance)

/-- The executor's mutable state, as touched by `get_actions` and the methods
it calls.  `active_agent` is whether a sub-agent object is currently assigned;
`last_error` models `set_error`.  Modelled from the spec: `set_error` comes
from `BaseSLAMAgent` (not in this tree); per the spec an error is "reported
through the shared error channel", modelled as recording it in the state. -/
structure ExecState where
  mission_steps : List MissionStep
  current_step_index : Nat
  active_agent : Bool
  active_agent_type : Option AgentType
  final_goal : Option (Int × Int)
  goal_position : Option (Int × Int)
  scanner : RoomScanner
  last_error : Option String
  mission_completed : Bool
deriving DecidableEq, Repr

/-- Per-tick inputs: observed agent position, observed global map, and the
contract surface of whichever external sub-agent gets invoked this tick. -/
structure TickInput where
  pos : Int × Int
  gmap : Option (List (List Int))
  subAct : Except String Action
  subComplete : Bool

/-- `MissionExecutorAgent.switch_agent`. -/
def switch_agent (rd : RoomData) (inp : TickInput) (step : MissionStep) (s : ExecState) :
    ExecState :=
  match step.agent_type with
  | .navigation =>
    let s1 := {s with active_agent := true}
    let s2 :=
      match step.target_location with
      | some t =>
        if t.data.isEmpty then s1
        else
          (match get_door_position rd t with
           | some dc => {s1 with goal_position := some dc}
           | none =>
             match get_closest_room_tile rd inp.gmap t inp.pos with
             | some c => {s1 with goal_position := some c}
             | none =>
               match get_room_coordinates rd t with
               | some c => {s1 with goal_position := some c}
               | none => s1)
      | none => s1
    {s2 with active_agent_type := some .navigation}
  | .door =>
    (match step.target_location with
     | some t =>
       if t.data.isEmpty then {s with active_agent := true, active_agent_type := some .door}
       else
         (match get_door_position rd t with
          | some dp =>
            if !is_near_door rd inp.pos t 3 then
              {s with active_agent := true, active_agent_type := some .navigation,
                      goal_position := some dp, final_goal := some dp}
            else
              {s with active_agent := true, active_agent_type := some .door}
          | none => {s with active_agent := true, active_agent_type := some .door})
     | none => {s with active_agent := true, active_agent_type := some .door})
  | .wall => {s with active_agent := true, active_agent_type := some .wall}
  | .scan => {s with scanner := scanner_reset, active_agent := true, active_agent_type := some .scan}
  | .unknown => {s with active_agent_type := some .unknown}

/-- The agent-selection prelude of `get_actions` (the Door-proximity special
case and the generic `switch_agent` dispatch). -/
def door_gate (rd : RoomData) (inp : TickInput) (step : MissionStep) (s : ExecState) :
    ExecState :=
  if step.agent_type = .door ∧ s.active_agent = false then
    match step.target_location with
    | some t =>
      if t.data.isEmpty then s
      else if !is_near_door rd inp.pos t 2 then
        let s1 := {s with active_agent := true, active_agent_type := some .navigation}
        match get_door_position rd t with
        | some dc => {s1 with goal_position := some dc, final_goal := some dc}
        | none =>
          (match get_closest_room_tile rd inp.gmap t inp.pos with
           | some c => {s1 with goal_position := some c, final_goal := some c}
           | none => s1)
      else switch_agent rd inp step s
    | none => s
  else if s.active_agent_type ≠ some step.agent_type ∧ s.active_agent = false then
    switch_agent rd inp step s
  else s

/-- `MissionExecutorAgent.execute_active_agent`: the scanner runs internally;
an external sub-agent first has its navigation goal re-targeted to the closest
room tile, then its returned action (or raised error) is taken from the tick
input; with no active agent the tick degrades to stay. -/
def execute_active_agent (rd : RoomData) (inp : TickInput) (step : MissionStep) (s : ExecState) :
    ExecState × Except String Action :=
  if s.active_agent_type = some .scan then
    let r := get_scan_action s.scanner
    ({s with scanner := r.1}, Except.ok r.2)
  else if s.active_agent then
    let s1 :=
      match s.active_agent_type, step.target_location with
      | some .navigation, some t =>
        if t.data.isEmpty then s
        else
          (match get_closest_room_tile rd inp.gmap t inp.pos with
           | some c => {s with goal_position := some c, final_goal := some c}
           | none =>
             match get_room_coordinates rd t with
             | some c => {s with goal_position := some c, final_goal := some c}
             | none => s)
      | _, _ => s
    (s1, inp.subAct)
  else (s, Except.ok Action.stay)

/-- `MissionExecutorAgent.is_agent_complete`. -/
def is_agent_complete (s : ExecState) (subComplete : Bool) : Bool :=
  if s.active_agent_type = some AgentType.scan then scanner_complete s.scanner
  else s.active_agent && subComplete

/-- The completion block of `get_actions` (lines guarded by
`if self.is_agent_complete()`): after a synthetic Navigation-to-door, re-check
proximity and either hand over to the Door sub-agent or clear the active agent
(both without advancing the cursor); otherwise mark the step completed,
advance the cursor and clear the slate.  A Door step with no target reaches
`is_near_door(pos, None)`, which raises in Python (`None.lower()`). -/
def handle_completion (rd : RoomData) (inp : TickInput) (step : MissionStep) (s : ExecState) :
    Except String ExecState :=
  if is_agent_complete s inp.subComplete then
    if s.active_agent_type = some AgentType.navigation ∧ step.agent_type = .door then
      match step.target_location with
      | none => Except.error "AttributeError: NoneType has no attribute lower"
      | some t =>
        if is_near_door rd inp.pos t 2 then
          Except.ok {s with active_agent := true, active_agent_type := some .door}
        else
          Except.ok {s with active_agent := false, active_agent_type := none}
    else
      Except.ok {s with
        mission_steps := s.mission_steps.set s.current_step_index {step with completed := true},
        current_step_index := s.current_step_index + 1,
        active_agent := false,
        active_agent_type := none,
        final_goal := none}
  else Except.ok s

/-- `MissionExecutorAgent.get_actions`, one tick.  The surrounding
`try/except` catches an error exactly where it is raised, keeping all state
mutations made up to that point (Python object mutation), records it and
degrades the tick to a stay action.  With no mission the wall-explore
sub-agent is the invoked external agent. -/
def get_actions (rd : RoomData) (inp : TickInput) (s : ExecState) : ExecState × Action :=
  if s.mission_steps = [] then
    match inp.subAct with
    | .ok a => (s, a)
    | .error e => ({s with last_error := some e}, Action.stay)
  else if h : s.mission_steps.length ≤ s.current_step_index then
    ({s with mission_completed := true}, Action.stay)
  else
    let step := s.mission_steps.get ⟨s.current_step_index, by omega⟩
    let s1 := door_gate rd inp step s
    let r := execute_active_agent rd inp step s1
    match r.2 with
    | .error e => ({r.1 with last_error := some e}, Action.stay)
    | .ok a =>
      match handle_completion rd inp step r.1 with
      | .error e => ({r.1 with last_error := some e}, Action.stay)
      | .ok s3 => (s3, a)

/-- A registry with one room, `mamad`, whose executor-side `doors` value is
empty, so `get_door_position` cannot resolve a door for it. -/
def demo_room_data : RoomData :=
  ⟨[("mamad", ⟨[5, 5, 9, 9], (7, 7), [], []⟩)], [("mamad", (7, 7))]⟩

/-- A Door mission step targeting `mamad`. -/
def demo_door_step : MissionStep :=
  ⟨2, AgentType.door, "open and enter mamad", some "mamad", false⟩

/-- Executor state sitting on the Door step with no active sub-agent. -/
def demo_exec_state : ExecState :=
  ⟨[demo_door_step], 0, false, none, none, none, scanner_reset, none, false⟩

/-- A tick during which the (would-be) external sub-agent returns forward and
does not report completion. -/
def demo_tick : TickInput := ⟨(20, 20), none, Except.ok Action.forward, false⟩

/-- Registry for the door-step scenarios: room `mamad` with a resolvable door
at (5, 5). -/
def c2_room_data : RoomData :=
  ⟨[("mamad", ⟨[4, 4, 9, 9], (6, 6), [5, 5], []⟩)], [("mamad", (6, 6))]⟩

/-- The pending Door mission step of the scenario. -/
def c2_door_step : MissionStep :=
  ⟨2, AgentType.door, "open and enter mamad", some "mamad", false⟩

/-- Executor state in the middle of the synthetic Navigation-to-door phase. -/
def c2_nav_state : ExecState :=
  ⟨[c2_door_step], 0, true, some AgentType.navigation, some (5, 5), some (5, 5),
   scanner_reset, none, false⟩

/-- Tick on which the synthetic Navigation reports completion while the agent
is still 30 tiles from the door. -/
def c2_tick : TickInput := ⟨(20, 20), none, Except.ok Action.forward, true⟩

/-- A tick on which the invoked external sub-agent raises. -/
def c7_tick : TickInput := ⟨(20, 20), none, Except.error "boom", false⟩

/-- Number of owning-room changes between consecutive cells of a path (the
claim's "membership changes exactly twice"). -/
def count_room_changes (rooms : List (String × RoomJson)) : List (Int × Int) → Nat
  | a :: b :: rest =>
    (if get_room_at rooms b.1 b.2 = get_room_at rooms a.1 a.2 then 0 else 1)
      + count_room_changes rooms (b :: rest)
  | _ => 0

/-- Three rooms in a row, each one cell wide. -/
def c4_rooms : List (String × RoomJson) :=
  [("roomA", ⟨[0, 0, 1, 1], CoordField.absent, CoordField.absent⟩),
   ("roomB", ⟨[1, 0, 2, 1], CoordField.absent, CoordField.absent⟩),
   ("roomC", ⟨[2, 0, 3, 1], CoordField.absent, CoordField.absent⟩)]

/-- A path stepping straight through the three rooms. -/
def c4_path : List (Int × Int) := [(0, 0), (1, 0), (2, 0)]

/-- Registry for the C4 witness: two named rooms separated by unlabeled
cells. -/
def c4_two_rooms : List (String × RoomJson) :=
  [("roomA", ⟨[0, 0, 2, 1], CoordField.absent, CoordField.absent⟩),
   ("roomB", ⟨[4, 0, 6, 1], CoordField.absent, CoordField.absent⟩)]

/-- The room the trivial (fewer-than-two-waypoints) branch of
`build_agent_plan` attaches to its steps:
`waypoints[0]["room"] if waypoints else "unknown"`. -/
def trivial_room (wps : List Waypoint) : Option String :=
  match wps with
  | [] => some "unknown"
  | w :: _ => w.room

/-- The step is a Navigation step whose destination room is `r`. -/
def step_is_nav_to (r : Option String) : AgentStep → Prop
  | AgentStep.nav _ _ _ r2 _ _ => r2 = r
  | _ => False

/-- The step is a Door step for room `r`. -/
def step_is_door_for (r : Option String) : AgentStep → Prop
  | AgentStep.door _ r2 => r2 = r
  | _ => False

/-- Adjacency invariant of compiled plans: a Door step only ever follows the
Navigation step into its room, and a Navigation step is followed by a Door
step for its destination exactly when that room's `doors` field is nonempty. -/
def nav_door_pairing (rooms : List (String × RoomJson)) (s1 s2 : AgentStep) : Prop :=
  (∀ r, step_is_door_for r s2 → step_is_nav_to r s1 ∧ has_doors rooms r = true)
  ∧ (∀ r, step_is_nav_to r s1 → (has_doors rooms r = true ↔ step_is_door_for r s2))

/-- Door-step test, as a boolean, for filtering compiled plans. -/
def is_door_step : AgentStep → Bool
  | AgentStep.door _ _ => true
  | _ => false

/-- Registry where the destination room declares an entry connector but no
doors: `route_to_agents.has_doors` only reads the `doors` field. -/
def c5_rooms : List (String × RoomJson) :=
  [("roomA", ⟨[0, 0, 2, 1], CoordField.absent, CoordField.absent⟩),
   ("roomB", ⟨[4, 0, 6, 1], CoordField.absent, CoordField.coords [(4, 0)]⟩)]

/-- Waypoints with one transition from roomA into roomB. -/
def c5_wps : List Waypoint :=
  [⟨(0, 0), some "roomA", "start"⟩, ⟨(4, 0), some "roomB", "enter_room"⟩]

/-- Same registry but with the connector declared in the `doors` field. -/
def c5_rooms_with_door : List (String × RoomJson) :=
  [("roomA", ⟨[0, 0, 2, 1], CoordField.absent, CoordField.absent⟩),
   ("roomB", ⟨[4, 0, 6, 1], CoordField.coords [(4, 0)], CoordField.absent⟩)]

/-- A 3×3 grid with a door tile (code 3) at (2, 0), an entry tile (code 8)
at (2, 1), an object at (1, 1), free space elsewhere. -/
def c3_grid : List (List Int) := [[0, 0, 3], [0, 1, 8], [0, 0, 0]]

/-- Registry declaring three door coordinates for roomB, of which only (2, 0)
carries a door/entry code on the grid ((0, 0) is free space, (9, 9) is out of
bounds). -/
def c3_rooms : List (String × RoomJson) :=
  [("roomB", ⟨[2, 0, 3, 2], CoordField.coords [(2, 0), (0, 0), (9, 9)], CoordField.absent⟩)]

/-- Planner state with the grid loaded. -/
def c3_planner : PathPlannerState := ⟨c3_rooms, some c3_grid⟩

/-! ## Theorems -/

/-- The state component of a scanner tick always just increments the counter. -/
theorem get_scan_action_fst (s : RoomScanner) : (get_scan_action s).1 = ⟨s.scan_steps + 1⟩ := by
  unfold get_scan_action
  dsimp only
  split
  · rfl
  · split <;> rfl

/-- The action component of a scanner tick as a function of the counter. -/
theorem get_scan_action_snd (s : RoomScanner) :
    (get_scan_action s).2 =
      (if max_scan_steps ≤ s.scan_steps + 1 then Action.stay
       else if (s.scan_steps + 1) % 4 = 0 then Action.turnRight
       else Action.forward) := by
  unfold get_scan_action
  dsimp only
  split
  · next h => simp only [if_pos h]
  · split <;> rfl

/-- After `k` ticks from reset the counter reads `k`. -/
theorem run_scanner_steps (k : Nat) : (run_scanner k).scan_steps = k := by
  induction k with
  | zero => rfl
  | succ n ih => rw [run_scanner, get_scan_action_fst, ih]

/-- C8: the built-in scan sub-agent turns on every fourth tick and advances
forward on the other ticks (three consecutive forwards between turns), until
the fixed budget of `max_scan_steps = 30` elapsed ticks is reached; from the
tick on which the budget is reached it returns only stay, and `is_complete`
is true exactly when the number of elapsed ticks has reached the budget.
`scan_action_at k` is the action of the `k+1`-st tick after a reset. -/
theorem scanner_pattern_budget_complete (k : Nat) :
    scan_action_at k =
      (if max_scan_steps ≤ k + 1 then Action.stay
       else if (k + 1) % 4 = 0 then Action.turnRight
       else Action.forward)
    ∧ scanner_complete (run_scanner k) = decide (max_scan_steps ≤ k) := by
  constructor
  · rw [scan_action_at, get_scan_action_snd, run_scanner_steps]
  · rw [scanner_complete, run_scanner_steps]

/-- C10: when no door coordinate resolves for the room named by a Door step
(`get_door_position` returns none), `is_near_door` is true at every position
and distance bound, so on a tick with a Door step and no active sub-agent the
executor activates the Door sub-agent at once — no synthetic Navigation phase
— and does not advance the step cursor.  (`subComplete = false` keeps the
freshly activated Door sub-agent from also completing within the same tick.) -/
theorem no_door_info_activates_door_agent
    (rd : RoomData) (inp : TickInput) (s : ExecState) (t : String) (step : MissionStep)
    (a : Action)
    (hstep : s.mission_steps.get? s.current_step_index = some step)
    (htype : step.agent_type = AgentType.door)
    (htarget : step.target_location = some t)
    (htE : t.data.isEmpty = false)
    (hactive : s.active_agent = false)
    (hdoor : get_door_position rd t = none)
    (hcompl : inp.subComplete = false)
    (hact : inp.subAct = Except.ok a) :
    (∀ p d, is_near_door rd p t d = true)
    ∧ (get_actions rd inp s).1.active_agent_type = some AgentType.door
    ∧ (get_actions rd inp s).1.active_agent = true
    ∧ (get_actions rd inp s).1.current_step_index = s.current_step_index
    ∧ (get_actions rd inp s).2 = a := by
  have hnear : ∀ p d, is_near_door rd p t d = true := by
    intro p d
    rw [is_near_door, hdoor]
  obtain ⟨hlt, hget⟩ := List.get?_eq_some.mp hstep
  have hne : s.mission_steps ≠ [] := by
    intro h0
    rw [h0] at hlt
    simp at hlt
  have hnle : ¬ s.mission_steps.length ≤ s.current_step_index := by omega
  have hrun : get_actions rd inp s =
      ({s with active_agent := true, active_agent_type := some AgentType.door}, a) := by
    rw [get_actions]
    rw [if_neg hne, dif_neg hnle]
    simp only [hget]
    rw [door_gate, if_pos ⟨htype, hactive⟩, htarget]
    dsimp only
    rw [htE]
    simp only [Bool.false_eq_true, if_false]
    rw [hnear inp.pos 2]
    simp only [Bool.not_true, Bool.false_eq_true, if_false]
    rw [switch_agent, htype]
    simp only [htarget, htE, hdoor, Bool.false_eq_true, if_false]
    simp [execute_active_agent, handle_completion, is_agent_complete, hact, hcompl]
  refine ⟨hnear, ?_, ?_, ?_, ?_⟩ <;> rw [hrun]

/-- Witness for C10 at the concrete door-less room. -/
theorem no_door_info_activates_door_agent_witness :
    is_near_door demo_room_data (0, 0) "mamad" 7 = true
    ∧ (get_actions demo_room_data demo_tick demo_exec_state).1.active_agent_type
        = some AgentType.door
    ∧ (get_actions demo_room_data demo_tick demo_exec_state).1.active_agent = true
    ∧ (get_actions demo_room_data demo_tick demo_exec_state).1.current_step_index = 0
    ∧ (get_actions demo_room_data demo_tick demo_exec_state).2 = Action.forward := by
  have h := no_door_info_activates_door_agent demo_room_data demo_tick demo_exec_state "mamad"
    demo_door_step Action.forward rfl rfl rfl rfl rfl (by decide) rfl rfl
  exact ⟨h.1 (0, 0) 7, h.2.1, h.2.2.1, h.2.2.2.1, h.2.2.2.2⟩

/-- Unfolding of one executor tick once the current step is known. -/
theorem get_actions_unfold (rd : RoomData) (inp : TickInput) (s : ExecState) (step : MissionStep)
    (hstep : s.mission_steps.get? s.current_step_index = some step) :
    get_actions rd inp s =
      (match (execute_active_agent rd inp step (door_gate rd inp step s)).2 with
       | Except.error e =>
         ({(execute_active_agent rd inp step (door_gate rd inp step s)).1 with
            last_error := some e}, Action.stay)
       | Except.ok a =>
         match handle_completion rd inp step
             (execute_active_agent rd inp step (door_gate rd inp step s)).1 with
         | Except.error e =>
           ({(execute_active_agent rd inp step (door_gate rd inp step s)).1 with
              last_error := some e}, Action.stay)
         | Except.ok s3 => (s3, a)) := by
  obtain ⟨hlt, hget⟩ := List.get?_eq_some.mp hstep
  have hne : s.mission_steps ≠ [] := by
    intro h0
    rw [h0] at hlt
    simp at hlt
  have hnle : ¬ s.mission_steps.length ≤ s.current_step_index := by omega
  rw [get_actions, if_neg hne, dif_neg hnle]
  simp only [hget]

/-- `execute_active_agent` never touches mission list, cursor, or the
active-agent slate. -/
theorem execute_preserves_control (rd : RoomData) (inp : TickInput) (step : MissionStep)
    (s : ExecState) :
    (execute_active_agent rd inp step s).1.mission_steps = s.mission_steps
    ∧ (execute_active_agent rd inp step s).1.current_step_index = s.current_step_index
    ∧ (execute_active_agent rd inp step s).1.active_agent = s.active_agent
    ∧ (execute_active_agent rd inp step s).1.active_agent_type = s.active_agent_type := by
  rw [execute_active_agent]
  repeat' split
  all_goals exact ⟨rfl, rfl, rfl, rfl⟩

/-- With an active non-scan sub-agent, the tick's action is whatever the
external sub-agent returned. -/
theorem execute_act_external (rd : RoomData) (inp : TickInput) (step : MissionStep) (s : ExecState)
    (hscan : s.active_agent_type ≠ some AgentType.scan) (hact : s.active_agent = true) :
    (execute_active_agent rd inp step s).2 = inp.subAct := by
  rw [execute_active_agent, if_neg (by simpa using hscan), if_pos hact]

/-- With a sub-agent already active, the agent-selection prelude is a no-op. -/
theorem door_gate_skip (rd : RoomData) (inp : TickInput) (step : MissionStep) (s : ExecState)
    (h : s.active_agent = true) :
    door_gate rd inp step s = s := by
  rw [door_gate, if_neg (by simp [h]), if_neg (by simp [h])]

/-- `is_agent_complete` for a non-scan slate is the external completion flag
gated by having an active agent. -/
theorem is_agent_complete_external (s : ExecState) (subC : Bool)
    (h : s.active_agent_type ≠ some AgentType.scan) :
    is_agent_complete s subC = (s.active_agent && subC) := by
  rw [is_agent_complete, if_neg h]

/-- An incomplete agent leaves the completion block untouched. -/
theorem handle_not_complete (rd : RoomData) (inp : TickInput) (step : MissionStep) (s : ExecState)
    (h : is_agent_complete s inp.subComplete = false) :
    handle_completion rd inp step s = Except.ok s := by
  rw [handle_completion, h]
  simp

/-- The completion block after a synthetic Navigation-to-door: re-check
proximity; hand over to the Door sub-agent when near, clear the slate when
not — the cursor is untouched either way. -/
theorem handle_nav_door (rd : RoomData) (inp : TickInput) (step : MissionStep) (s : ExecState)
    (t : String)
    (hc : is_agent_complete s inp.subComplete = true)
    (htypeS : s.active_agent_type = some AgentType.navigation)
    (htype : step.agent_type = AgentType.door)
    (htarget : step.target_location = some t) :
    handle_completion rd inp step s =
      (if is_near_door rd inp.pos t 2 then
        Except.ok {s with active_agent := true, active_agent_type := some AgentType.door}
      else Except.ok {s with active_agent := false, active_agent_type := none}) := by
  rw [handle_completion, hc, if_pos rfl, if_pos ⟨htypeS, htype⟩, htarget]

/-- The agent-selection prelude on a far Door step: activates a synthetic
Navigation, leaving mission list and cursor untouched. -/
theorem door_gate_far_synthetic (rd : RoomData) (inp : TickInput) (step : MissionStep)
    (s : ExecState) (t : String)
    (htype : step.agent_type = AgentType.door) (htarget : step.target_location = some t)
    (htE : t.data.isEmpty = false)
    (hactive : s.active_agent = false) (hfar : is_near_door rd inp.pos t 2 = false) :
    (door_gate rd inp step s).active_agent = true
    ∧ (door_gate rd inp step s).active_agent_type = some AgentType.navigation
    ∧ (door_gate rd inp step s).mission_steps = s.mission_steps
    ∧ (door_gate rd inp step s).current_step_index = s.current_step_index := by
  rw [door_gate, if_pos ⟨htype, hactive⟩, htarget]
  dsimp only
  rw [htE, hfar]
  simp only [Bool.false_eq_true, if_false, Bool.not_false, if_true]
  repeat' split
  all_goals exact ⟨rfl, rfl, rfl, rfl⟩

/-- C2 (amended): on a Door step with a target room, if the agent is farther
than the threshold (2 tiles, Manhattan, via `is_near_door`) and no sub-agent
is active, the executor activates a synthetic Navigation without advancing the
cursor; and when that synthetic Navigation signals completion the executor
*re-checks proximity*: within the threshold it switches to the Door sub-agent
without advancing the cursor, otherwise it clears the active-agent slate
(cursor still unadvanced) so that navigation is re-synthesized on a later
tick. -/
theorem door_step_defers_nav_then_rechecks (rd : RoomData) (inp : TickInput) (s : ExecState)
    (t : String) (step : MissionStep) (a : Action)
    (hstep : s.mission_steps.get? s.current_step_index = some step)
    (htype : step.agent_type = AgentType.door)
    (htarget : step.target_location = some t)
    (htE : t.data.isEmpty = false)
    (hact : inp.subAct = Except.ok a) :
    (s.active_agent = false → inp.subComplete = false →
       is_near_door rd inp.pos t 2 = false →
       (get_actions rd inp s).1.active_agent_type = some AgentType.navigation
       ∧ (get_actions rd inp s).1.active_agent = true
       ∧ (get_actions rd inp s).1.current_step_index = s.current_step_index)
    ∧ (s.active_agent = true → s.active_agent_type = some AgentType.navigation →
       inp.subComplete = true →
       (get_actions rd inp s).1.current_step_index = s.current_step_index
       ∧ (is_near_door rd inp.pos t 2 = true →
           (get_actions rd inp s).1.active_agent_type = some AgentType.door
           ∧ (get_actions rd inp s).1.active_agent = true)
       ∧ (is_near_door rd inp.pos t 2 = false →
           (get_actions rd inp s).1.active_agent_type = none
           ∧ (get_actions rd inp s).1.active_agent = false)) := by
  rw [get_actions_unfold rd inp s step hstep]
  constructor
  · intro hactive hcompl hfar
    obtain ⟨g1, g2, g3, g4⟩ :=
      door_gate_far_synthetic rd inp step s t htype htarget htE hactive hfar
    obtain ⟨e1, e2, e3, e4⟩ := execute_preserves_control rd inp step (door_gate rd inp step s)
    have hscan : (door_gate rd inp step s).active_agent_type ≠ some AgentType.scan := by
      rw [g2]
      simp
    rw [execute_act_external rd inp step _ hscan g1, hact]
    have hnc : is_agent_complete (execute_active_agent rd inp step (door_gate rd inp step s)).1
        inp.subComplete = false := by
      rw [is_agent_complete_external _ _ (by rw [e4]; exact hscan), e3, g1, hcompl]
      rfl
    rw [handle_not_complete rd inp step _ hnc]
    exact ⟨e4.trans g2, e3.trans g1, e2.trans g4⟩
  · intro hactive htypeS hcompl
    rw [door_gate_skip rd inp step s hactive]
    obtain ⟨e1, e2, e3, e4⟩ := execute_preserves_control rd inp step s
    have hscan : s.active_agent_type ≠ some AgentType.scan := by
      rw [htypeS]
      simp
    rw [execute_act_external rd inp step s hscan hactive, hact]
    have hc : is_agent_complete (execute_active_agent rd inp step s).1 inp.subComplete = true := by
      rw [is_agent_complete_external _ _ (by rw [e4]; exact hscan), e3, hactive, hcompl]
      rfl
    rw [handle_nav_door rd inp step _ t hc (e4.trans htypeS) htype htarget]
    by_cases hnear : is_near_door rd inp.pos t 2 = true
    · rw [if_pos hnear]
      exact ⟨e2, fun _ => ⟨rfl, rfl⟩, fun hf => absurd hnear (by simp [hf])⟩
    · rw [if_neg hnear]
      exact ⟨e2, fun ht => absurd ht hnear, fun _ => ⟨rfl, rfl⟩⟩

/-- C2 counterexample: the synthetic Navigation just completed
(`subComplete = true`) with the agent still far from the door, and the
executor does **not** switch to the Door sub-agent — it re-checks proximity
and clears the active-agent slate instead, refuting "switches to the Door
sub-agent ... without re-checking proximity". -/
theorem nav_completion_recheck_cex :
    is_near_door c2_room_data c2_tick.pos "mamad" 2 = false
    ∧ c2_nav_state.active_agent_type = some AgentType.navigation
    ∧ c2_tick.subComplete = true
    ∧ (get_actions c2_room_data c2_tick c2_nav_state).1.active_agent_type
        ≠ some AgentType.door
    ∧ (get_actions c2_room_data c2_tick c2_nav_state).1.active_agent_type = none := by
  decide

/-- Witness for the amended C2 at the concrete scenario. -/
theorem door_step_defers_nav_then_rechecks_witness :
    (get_actions c2_room_data c2_tick c2_nav_state).1.current_step_index = 0
    ∧ (get_actions c2_room_data c2_tick c2_nav_state).1.active_agent_type = none
    ∧ (get_actions c2_room_data c2_tick c2_nav_state).1.active_agent = false := by
  have h := door_step_defers_nav_then_rechecks c2_room_data c2_tick c2_nav_state "mamad"
    c2_door_step Action.forward rfl rfl rfl (by decide) rfl
  have hb := h.2 rfl rfl rfl
  have hfar : is_near_door c2_room_data c2_tick.pos "mamad" 2 = false := by decide
  exact ⟨hb.1, (hb.2.2 hfar).1, (hb.2.2 hfar).2⟩

/-- `switch_agent` never touches mission list or cursor. -/
theorem switch_agent_preserves (rd : RoomData) (inp : TickInput) (step : MissionStep)
    (s : ExecState) :
    (switch_agent rd inp step s).mission_steps = s.mission_steps
    ∧ (switch_agent rd inp step s).current_step_index = s.current_step_index := by
  rw [switch_agent]
  repeat' split
  all_goals exact ⟨rfl, rfl⟩

/-- The agent-selection prelude never touches mission list or cursor. -/
theorem door_gate_preserves (rd : RoomData) (inp : TickInput) (step : MissionStep)
    (s : ExecState) :
    (door_gate rd inp step s).mission_steps = s.mission_steps
    ∧ (door_gate rd inp step s).current_step_index = s.current_step_index := by
  rw [door_gate]
  repeat' split
  all_goals first
  | exact ⟨rfl, rfl⟩
  | exact switch_agent_preserves rd inp step s

/-- The completion block either leaves the cursor alone, or advances it by
exactly one — and the latter only when `is_agent_complete` reads true. -/
theorem handle_completion_cursor (rd : RoomData) (inp : TickInput) (step : MissionStep)
    (s2 s3 : ExecState) (h : handle_completion rd inp step s2 = Except.ok s3) :
    s3.current_step_index = s2.current_step_index
    ∨ (s3.current_step_index = s2.current_step_index + 1
       ∧ is_agent_complete s2 inp.subComplete = true) := by
  rw [handle_completion] at h
  by_cases hc : is_agent_complete s2 inp.subComplete = true
  · rw [if_pos hc] at h
    split at h
    · split at h
      · exact absurd h (by simp)
      · split at h
        · injection h with h3
          left
          rw [← h3]
        · injection h with h3
          left
          rw [← h3]
    · injection h with h3
      right
      rw [← h3]
      exact ⟨rfl, hc⟩
  · rw [if_neg hc] at h
    injection h with h3
    left
    rw [← h3]

/-- C7: (i) when the invoked external sub-agent raises an error, the executor
catches it, records it, and degrades the tick to a stay action with the cursor
untouched; (ii) on every tick the cursor either stays or advances by exactly
one, and it advances only when the active sub-agent's completion predicate
(`is_agent_complete`, i.e. the sub-agent's explicit completion signal, or the
scanner's budget) reads true. -/
theorem errors_degrade_and_cursor_gated (rd : RoomData) (inp : TickInput) (s : ExecState) :
    (∀ step e, s.mission_steps.get? s.current_step_index = some step →
       inp.subAct = Except.error e →
       (door_gate rd inp step s).active_agent = true →
       (door_gate rd inp step s).active_agent_type ≠ some AgentType.scan →
       (get_actions rd inp s).2 = Action.stay
       ∧ (get_actions rd inp s).1.last_error = some e
       ∧ (get_actions rd inp s).1.current_step_index = s.current_step_index)
    ∧ ((get_actions rd inp s).1.current_step_index = s.current_step_index
       ∨ ((get_actions rd inp s).1.current_step_index = s.current_step_index + 1
          ∧ ∃ step, s.mission_steps.get? s.current_step_index = some step
             ∧ is_agent_complete
                 (execute_active_agent rd inp step (door_gate rd inp step s)).1
                 inp.subComplete = true)) := by
  constructor
  · intro step e hstep herr hactive hscan
    rw [get_actions_unfold rd inp s step hstep]
    rw [execute_act_external rd inp step _ hscan hactive, herr]
    refine ⟨rfl, rfl, ?_⟩
    show (execute_active_agent rd inp step (door_gate rd inp step s)).1.current_step_index
        = s.current_step_index
    rw [(execute_preserves_control rd inp step _).2.1,
      (door_gate_preserves rd inp step s).2]
  · by_cases hempty : s.mission_steps = []
    · rw [get_actions, if_pos hempty]
      cases inp.subAct <;> exact Or.inl rfl
    · by_cases hlen : s.mission_steps.length ≤ s.current_step_index
      · rw [get_actions, if_neg hempty, dif_pos hlen]
        exact Or.inl rfl
      · have hlt : s.current_step_index < s.mission_steps.length := by omega
        have hstep : s.mission_steps.get? s.current_step_index
            = some (s.mission_steps.get ⟨s.current_step_index, hlt⟩) :=
          List.get?_eq_get hlt
        rw [get_actions_unfold rd inp s _ hstep]
        cases h2 : (execute_active_agent rd inp
            (s.mission_steps.get ⟨s.current_step_index, hlt⟩)
            (door_gate rd inp (s.mission_steps.get ⟨s.current_step_index, hlt⟩) s)).2 with
        | error e =>
          simp only [h2]
          left
          show (execute_active_agent rd inp _ (door_gate rd inp _ s)).1.current_step_index
              = s.current_step_index
          rw [(execute_preserves_control rd inp _ _).2.1, (door_gate_preserves rd inp _ s).2]
        | ok a =>
          simp only [h2]
          cases h3 : handle_completion rd inp (s.mission_steps.get ⟨s.current_step_index, hlt⟩)
              (execute_active_agent rd inp (s.mission_steps.get ⟨s.current_step_index, hlt⟩)
                (door_gate rd inp (s.mission_steps.get ⟨s.current_step_index, hlt⟩) s)).1 with
          | error e3 =>
            simp only [h3]
            left
            show (execute_active_agent rd inp _ (door_gate rd inp _ s)).1.current_step_index
                = s.current_step_index
            rw [(execute_preserves_control rd inp _ _).2.1, (door_gate_preserves rd inp _ s).2]
          | ok s3 =>
            simp only [h3]
            have hidx : (execute_active_agent rd inp
                (s.mission_steps.get ⟨s.current_step_index, hlt⟩)
                (door_gate rd inp (s.mission_steps.get ⟨s.current_step_index, hlt⟩)
                  s)).1.current_step_index = s.current_step_index := by
              rw [(execute_preserves_control rd inp _ _).2.1, (door_gate_preserves rd inp _ s).2]
            rcases handle_completion_cursor rd inp _ _ s3 h3 with hL | ⟨hR, hc⟩
            · left
              rw [hL, hidx]
            · right
              refine ⟨by rw [hR, hidx], _, hstep, hc⟩

/-- Witness for C7 at a concrete erroring tick. -/
theorem errors_degrade_and_cursor_gated_witness :
    (get_actions c2_room_data c7_tick c2_nav_state).2 = Action.stay
    ∧ (get_actions c2_room_data c7_tick c2_nav_state).1.last_error = some "boom"
    ∧ (get_actions c2_room_data c7_tick c2_nav_state).1.current_step_index = 0 := by
  have h := (errors_degrade_and_cursor_gated c2_room_data c7_tick c2_nav_state).1
    c2_door_step "boom" rfl rfl (by decide) (by decide)
  exact ⟨h.1, h.2.1, h.2.2⟩

/-- The key-point scan skips a segment whose cells all lie in the running
room, advancing only the previous-cell tracker. -/
theorem key_scan_const (rooms : List (String × RoomJson)) (cs ds : List (Int × Int))
    (prev : Int × Int) (lr : Option String)
    (h : ∀ c ∈ cs, get_room_at rooms c.1 c.2 = lr) :
    key_scan rooms prev lr (cs ++ ds) = key_scan rooms (cs.getLastD prev) lr ds := by
  induction cs generalizing prev with
  | nil => rfl
  | cons c cs ih =>
    have hc : get_room_at rooms c.1 c.2 = lr := h c (by simp)
    rw [List.cons_append]
    show key_scan rooms prev lr (c :: (cs ++ ds)) = _
    simp only [key_scan, hc, if_pos rfl]
    rw [ih c (fun x hx => h x (by simp [hx])), List.getLastD_cons]
    rw [if_pos trivial]

/-- A segment lying entirely in the running room contributes no key points. -/
theorem key_scan_all_const (rooms : List (String × RoomJson)) (cs : List (Int × Int))
    (prev : Int × Int) (lr : Option String)
    (h : ∀ c ∈ cs, get_room_at rooms c.1 c.2 = lr) :
    key_scan rooms prev lr cs = [] := by
  have h2 := key_scan_const rooms cs [] prev lr h
  rw [List.append_nil] at h2
  rw [h2]
  rfl

/-- C4 counterexample: this non-empty path changes owning-room membership
exactly twice between consecutive cells, yet `identify_key_points` emits two
`exit_room` waypoints (and two enter waypoints) — every departure from a
named room is tagged, not just one — refuting "exactly one exit_room". -/
theorem two_room_changes_two_exits_cex :
    c4_path ≠ []
    ∧ count_room_changes c4_rooms c4_path = 2
    ∧ ((identify_key_points c4_rooms c4_path).filter
        (fun k => k.wtype = "exit_room")).length = 2
    ∧ ((identify_key_points c4_rooms c4_path).filter
        (fun k => k.wtype = "enter_room" ∨ k.wtype = "enter_hallway")).length = 2 := by
  decide

/-- C4 (amended): for a path that starts in a named room `a`, crosses only
unlabeled cells, and ends in a named room `b` — the case in which membership
changes exactly twice with an unlabeled middle — the key points are exactly a
`start` tag, one `exit_room` at the last cell of the first segment, one
subsequent enter tag at the first cell of the last segment, and a `goal` tag.
(A path whose middle segment is itself a named room gets two exits and two
enters, one per departure/arrival, as the counterexample shows.) -/
theorem two_changes_via_unlabeled_one_exit_one_enter (rooms : List (String × RoomJson))
    (a0 b0 : Int × Int) (t1 p2 t3 : List (Int × Int)) (a b : String)
    (ha : ∀ c ∈ a0 :: t1, get_room_at rooms c.1 c.2 = some a)
    (hn : ∀ c ∈ p2, get_room_at rooms c.1 c.2 = none)
    (hb : ∀ c ∈ b0 :: t3, get_room_at rooms c.1 c.2 = some b)
    (hp2 : p2 ≠ [])
    (haE : a.data.isEmpty = false)
    (hbE : b.data.isEmpty = false) :
    identify_key_points rooms (a0 :: (t1 ++ p2 ++ (b0 :: t3))) =
      [⟨a0, some a, "start"⟩,
       ⟨t1.getLastD a0, some a, "exit_room"⟩,
       ⟨b0, some b, enter_tag b⟩,
       ⟨t3.getLastD b0, some b, "goal"⟩] := by
  obtain ⟨c0, t2, rfl⟩ : ∃ c0 t2, p2 = c0 :: t2 := by
    cases p2 with
    | nil => exact absurd rfl hp2
    | cons c0 t2 => exact ⟨c0, t2, rfl⟩
  have ha0 : get_room_at rooms a0.1 a0.2 = some a := ha a0 (by simp)
  have hlast : ((t1 ++ (c0 :: t2) ++ (b0 :: t3)).getLastD a0) = t3.getLastD b0 := by
    rw [List.append_assoc, List.getLastD_eq_getLast?,
      List.getLast?_append_of_ne_nil _ (by simp),
      List.getLast?_append_of_ne_nil _ (by simp),
      ← List.getLastD_eq_getLast?, List.getLastD_cons]
  have hblast : get_room_at rooms (t3.getLastD b0).1 (t3.getLastD b0).2 = some b := by
    apply hb
    rw [List.getLastD_eq_getLast?]
    cases h3 : t3.getLast? with
    | none => simp
    | some x =>
      simp only [Option.getD_some]
      exact List.mem_cons_of_mem _ (List.mem_of_mem_getLast? h3)
  have hscan : key_scan rooms a0 (some a) (t1 ++ (c0 :: t2) ++ (b0 :: t3)) =
      [⟨t1.getLastD a0, some a, "exit_room"⟩, ⟨b0, some b, enter_tag b⟩] := by
    rw [List.append_assoc,
      key_scan_const rooms t1 _ a0 (some a) (fun c hc => ha c (by simp [hc]))]
    rw [List.cons_append]
    have hc0 : get_room_at rooms c0.1 c0.2 = none := hn c0 (by simp)
    simp only [key_scan, hc0]
    rw [if_neg (by simp)]
    rw [haE]
    simp only [Bool.false_eq_true, if_false]
    rw [key_scan_const rooms t2 _ c0 none (fun c hc => hn c (by simp [hc]))]
    have hb0 : get_room_at rooms b0.1 b0.2 = some b := hb b0 (by simp)
    simp only [key_scan, hb0]
    rw [if_neg (by simp)]
    rw [hbE]
    simp only [Bool.false_eq_true, if_false]
    rw [key_scan_all_const rooms t3 b0 (some b) (fun c hc => hb c (by simp [hc]))]
    rfl
  rw [identify_key_points]
  simp only [ha0, hlast, hblast, hscan]
  rfl

/-- Witness for the amended C4 at a concrete path roomA → unlabeled → roomB. -/
theorem two_changes_via_unlabeled_witness :
    identify_key_points c4_two_rooms [(0, 0), (1, 0), (2, 0), (3, 0), (4, 0), (5, 0)] =
      [⟨(0, 0), some "roomA", "start"⟩,
       ⟨(1, 0), some "roomA", "exit_room"⟩,
       ⟨(4, 0), some "roomB", enter_tag "roomB"⟩,
       ⟨(5, 0), some "roomB", "goal"⟩] := by
  have h := two_changes_via_unlabeled_one_exit_one_enter c4_two_rooms (0, 0) (4, 0)
    [(1, 0)] [(2, 0), (3, 0)] [(5, 0)] "roomA" "roomB"
    (by decide) (by decide) (by decide) (by decide) (by decide) (by decide)
  exact h

/-- C6: (i) a path dictionary with fewer than two waypoints compiles to a
plan with no Navigation and no Door steps: exactly one terminal Scan step,
preceded by a Wall step exactly when that option is enabled; (ii) the
single-cell path whose start cell already lies in the goal room's bbox
(start = goal) compiles, through `identify_key_points`, to the same
Scan-only shape tagged with the goal room. -/
theorem trivial_path_compiles_to_scan (rooms : List (String × RoomJson))
    (target : Option String) (iw : Bool) :
    (∀ wps : List Waypoint, wps.length < 2 →
      build_agent_plan iw rooms wps target =
        (if iw then [AgentStep.wall 1 (trivial_room wps)] else [])
          ++ [AgentStep.scan (if iw then 2 else 1) (trivial_room wps) target])
    ∧ (∀ (p : Int × Int) (goalRoom : String),
        get_room_at rooms p.1 p.2 = some goalRoom →
        build_agent_plan iw rooms (identify_key_points rooms [p]) target =
          (if iw then [AgentStep.wall 1 (some goalRoom)] else [])
            ++ [AgentStep.scan (if iw then 2 else 1) (some goalRoom) target]) := by
  constructor
  · intro wps h
    cases wps with
    | nil => rfl
    | cons w tail =>
      cases tail with
      | nil => rfl
      | cons w2 t2 =>
        simp only [List.length_cons] at h
        omega
  · intro p goalRoom hroom
    have hkeys : identify_key_points rooms [p] =
        [⟨p, some goalRoom, "start"⟩, ⟨p, some goalRoom, "goal"⟩] := by
      rw [identify_key_points]
      simp [key_scan, hroom]
    rw [hkeys]
    show (let r := compile_transitions rooms [⟨p, some goalRoom, "goal"⟩] (some goalRoom) p 1
          let final_room := (([⟨p, some goalRoom, "goal"⟩] : List Waypoint).getLastD
            ⟨p, some goalRoom, "start"⟩).room
          r.1 ++ (if iw then [AgentStep.wall r.2 final_room] else [])
            ++ [AgentStep.scan (if iw then r.2 + 1 else r.2) final_room target]) = _
    simp only [compile_transitions, if_pos rfl]
    rfl

/-- Witness for C6 with the wall option enabled, at an empty waypoint list and
at a concrete single-cell path inside `roomA`. -/
theorem trivial_path_compiles_to_scan_witness :
    build_agent_plan true c4_two_rooms [] none =
      [AgentStep.wall 1 (some "unknown"), AgentStep.scan 2 (some "unknown") none]
    ∧ build_agent_plan false c4_two_rooms
        (identify_key_points c4_two_rooms [(0, 0)]) (some "mug") =
      [AgentStep.scan 1 (some "roomA") (some "mug")] := by
  constructor
  · rw [(trivial_path_compiles_to_scan c4_two_rooms none true).1 [] (by decide)]
    rfl
  · have h := (trivial_path_compiles_to_scan c4_two_rooms (some "mug") false).2 (0, 0) "roomA"
      (by decide)
    rw [h]
    rfl

/-- C9: route compilation is deterministic.  In the source,
`identify_key_points`, `calc_distances` and `build_agent_plan` read only their
arguments (the raw cell path, the room registry, and the module option) and
keep no mutable state between calls, which the embedding mirrors — so
re-compiling the same path twice yields identical waypoint lists, identical
step lists (order, agent types, rooms, points, numbering) and the same total
distance.  The only run-dependent field of the source output dictionaries is
the wall-clock timestamp, which the claim explicitly excludes. -/
theorem recompilation_deterministic (rooms : List (String × RoomJson))
    (path : List (Int × Int)) (target : Option String) (iw : Bool) :
    identify_key_points rooms path = identify_key_points rooms path
    ∧ calc_distances (identify_key_points rooms path)
        = calc_distances (identify_key_points rooms path)
    ∧ build_agent_plan iw rooms (identify_key_points rooms path) target
        = build_agent_plan iw rooms (identify_key_points rooms path) target :=
  ⟨rfl, rfl, rfl⟩

/-- A pair whose left member is no Navigation step and whose right member is
no Door step vacuously satisfies the adjacency invariant. -/
theorem pairing_of_not_nav_not_door (rooms : List (String × RoomJson)) (s1 s2 : AgentStep)
    (h1 : ∀ r, ¬ step_is_nav_to r s1) (h2 : ∀ r, ¬ step_is_door_for r s2) :
    nav_door_pairing rooms s1 s2 :=
  ⟨fun r hd => absurd hd (h2 r), fun r hn => absurd hn (h1 r)⟩

/-- The transition compiler's output never begins with a Door step. -/
theorem compile_transitions_head_not_door (rooms : List (String × RoomJson)) :
    ∀ (wps : List Waypoint) (cur : Option String) (seg : Int × Int) (n : Nat) (s : AgentStep),
      (compile_transitions rooms wps cur seg n).1.head? = some s →
      ∀ r, ¬ step_is_door_for r s := by
  intro wps
  induction wps with
  | nil =>
    intro cur seg n s h r
    simp [compile_transitions] at h
  | cons wp rest ih =>
    intro cur seg n s h r
    by_cases heq : wp.room = cur
    · simp only [compile_transitions, if_pos heq] at h
      exact ih cur seg n s h r
    · simp only [compile_transitions, if_neg heq] at h
      by_cases hd : has_doors rooms wp.room = true
      · rw [if_pos hd] at h
        dsimp only [List.head?] at h
        injection h with h2
        rw [← h2]
        exact fun hfalse => hfalse
      · rw [if_neg hd] at h
        dsimp only [List.head?] at h
        injection h with h2
        rw [← h2]
        exact fun hfalse => hfalse

/-- The compiled transition steps, followed by any door-free suffix that
itself satisfies the adjacency invariant, satisfy the adjacency invariant. -/
theorem compile_transitions_chain (rooms : List (String × RoomJson)) (suffix : List AgentStep)
    (hhead : ∀ s, suffix.head? = some s → ∀ r, ¬ step_is_door_for r s)
    (hchain : List.Chain' (nav_door_pairing rooms) suffix) :
    ∀ (wps : List Waypoint) (cur : Option String) (seg : Int × Int) (n : Nat),
      List.Chain' (nav_door_pairing rooms)
        ((compile_transitions rooms wps cur seg n).1 ++ suffix) := by
  intro wps
  induction wps with
  | nil =>
    intro cur seg n
    simpa [compile_transitions] using hchain
  | cons wp rest ih =>
    intro cur seg n
    have hheadrec : ∀ (cur2 : Option String) (seg2 : Int × Int) (n2 : Nat) (s : AgentStep),
        ((compile_transitions rooms rest cur2 seg2 n2).1 ++ suffix).head? = some s →
        ∀ r, ¬ step_is_door_for r s := by
      intro cur2 seg2 n2 s hs r
      rw [List.head?_append] at hs
      cases h1 : (compile_transitions rooms rest cur2 seg2 n2).1.head? with
      | none =>
        rw [h1] at hs
        exact hhead s hs r
      | some s3 =>
        rw [h1] at hs
        injection hs with h2
        rw [← h2]
        exact compile_transitions_head_not_door rooms rest cur2 seg2 n2 s3 h1 r
    by_cases heq : wp.room = cur
    · simp only [compile_transitions, if_pos heq]
      exact ih cur seg n
    · simp only [compile_transitions, if_neg heq]
      by_cases hd : has_doors rooms wp.room = true
      · rw [if_pos hd]
        dsimp only
        rw [List.cons_append, List.cons_append]
        refine List.chain'_cons'.mpr ⟨?_, List.chain'_cons'.mpr ⟨?_, ih wp.room wp.point (n + 2)⟩⟩
        · intro h hh
          dsimp only [List.head?] at hh
          injection hh with h2
          rw [← h2]
          constructor
          · intro r hdoor
            have hr : wp.room = r := hdoor
            rw [← hr]
            exact ⟨rfl, hd⟩
          · intro r hnav
            have hr : wp.room = r := hnav
            rw [← hr]
            exact ⟨fun _ => rfl, fun _ => hd⟩
        · intro s hs
          have hnd := hheadrec wp.room wp.point (n + 2) s hs
          exact ⟨fun r hdoor => absurd hdoor (hnd r), fun r hnav => absurd hnav (fun x => x)⟩
      · rw [if_neg hd]
        dsimp only
        rw [List.cons_append]
        refine List.chain'_cons'.mpr ⟨?_, ih wp.room wp.point (n + 1)⟩
        intro s hs
        have hnd := hheadrec wp.room wp.point (n + 1) s hs
        constructor
        · intro r hdoor
          exact absurd hdoor (hnd r)
        · intro r hnav
          have hr : wp.room = r := hnav
          constructor
          · intro hdt
            rw [← hr] at hdt
            exact absurd hdt hd
          · intro hdoor
            exact absurd hdoor (hnd r)

/-- A wall step is no Navigation step. -/
theorem wall_not_nav (n : Nat) (ro : Option String) (r : Option String) :
    ¬ step_is_nav_to r (AgentStep.wall n ro) :=
  fun h => h

/-- A scan step is no Door step. -/
theorem scan_not_door (n : Nat) (ro : Option String) (t : Option String) (r : Option String) :
    ¬ step_is_door_for r (AgentStep.scan n ro t) :=
  fun h => h

/-- The terminal (optional Wall and) Scan suffix of every compiled plan is
door-free and satisfies the adjacency invariant. -/
theorem tail_steps_chain (rooms : List (String × RoomJson)) (iw : Bool) (nw ns : Nat)
    (rw2 rs : Option String) (t : Option String) :
    (∀ s, ((if iw then [AgentStep.wall nw rw2] else [])
        ++ [AgentStep.scan ns rs t]).head? = some s → ∀ r, ¬ step_is_door_for r s)
    ∧ List.Chain' (nav_door_pairing rooms)
        ((if iw then [AgentStep.wall nw rw2] else []) ++ [AgentStep.scan ns rs t]) := by
  cases iw with
  | false =>
    refine ⟨?_, List.chain'_singleton _⟩
    intro s hs r
    simp only [if_neg (by simp : ¬ (False : Prop)), List.nil_append, List.head?] at hs
    injection hs with h2
    rw [← h2]
    exact scan_not_door ns rs t r
  | true =>
    constructor
    · intro s hs r
      simp only [if_pos trivial, List.cons_append, List.nil_append, List.head?] at hs
      injection hs with h2
      rw [← h2]
      exact fun hfalse => hfalse
    · simp only [if_pos trivial, List.cons_append, List.nil_append]
      exact List.chain'_cons'.mpr
        ⟨fun h hh => by
          dsimp only [List.head?] at hh
          injection hh with h2
          rw [← h2]
          exact pairing_of_not_nav_not_door rooms _ _ (wall_not_nav nw rw2)
            (scan_not_door ns rs t),
         List.chain'_singleton _⟩

/-- Every compiled plan satisfies the Navigation/Door adjacency invariant. -/
theorem build_agent_plan_chain (rooms : List (String × RoomJson)) (wps : List Waypoint)
    (target : Option String) (iw : Bool) :
    List.Chain' (nav_door_pairing rooms) (build_agent_plan iw rooms wps target) := by
  cases wps with
  | nil =>
    exact (tail_steps_chain rooms iw 1 (if iw then 2 else 1) (some "unknown")
      (some "unknown") target).2
  | cons w0 tail =>
    cases tail with
    | nil =>
      exact (tail_steps_chain rooms iw 1 (if iw then 2 else 1) w0.room w0.room target).2
    | cons w1 rest =>
      show List.Chain' (nav_door_pairing rooms) _
      rw [build_agent_plan]
      rw [List.append_assoc]
      exact compile_transitions_chain rooms _
        (tail_steps_chain rooms iw _ _ _ _ target).1
        (tail_steps_chain rooms iw _ _ _ _ target).2
        (w1 :: rest) w0.room w0.point 1

/-- A compiled plan never begins with a Door step. -/
theorem build_agent_plan_head_not_door (rooms : List (String × RoomJson)) (wps : List Waypoint)
    (target : Option String) (iw : Bool) :
    ∀ s, (build_agent_plan iw rooms wps target).head? = some s →
      ∀ r, ¬ step_is_door_for r s := by
  cases wps with
  | nil =>
    exact (tail_steps_chain rooms iw 1 (if iw then 2 else 1) (some "unknown")
      (some "unknown") target).1
  | cons w0 tail =>
    cases tail with
    | nil =>
      exact (tail_steps_chain rooms iw 1 (if iw then 2 else 1) w0.room w0.room target).1
    | cons w1 rest =>
      intro s hs r
      rw [build_agent_plan] at hs
      rw [List.append_assoc, List.head?_append] at hs
      cases h1 : (compile_transitions rooms (w1 :: rest) w0.room w0.point 1).1.head? with
      | none =>
        rw [h1] at hs
        exact (tail_steps_chain rooms iw _ _ _ _ target).1 s hs r
      | some s3 =>
        rw [h1] at hs
        injection hs with h2
        rw [← h2]
        exact compile_transitions_head_not_door rooms (w1 :: rest) w0.room w0.point 1 s3 h1 r

/-- Every compiled plan ends with a Scan step. -/
theorem build_agent_plan_getLast_scan (rooms : List (String × RoomJson)) (wps : List Waypoint)
    (target : Option String) (iw : Bool) :
    ∃ n r, (build_agent_plan iw rooms wps target).getLast?
      = some (AgentStep.scan n r target) := by
  cases wps with
  | nil => exact ⟨if iw then 2 else 1, some "unknown", List.getLast?_concat _⟩
  | cons w0 tail =>
    cases tail with
    | nil => exact ⟨if iw then 2 else 1, w0.room, List.getLast?_concat _⟩
    | cons w1 rest =>
      rw [build_agent_plan]
      exact ⟨_, _, List.getLast?_concat _⟩

/-- C5 (amended): in a compiled mission, a Door step for a destination room is
emitted immediately after the Navigation step into it if and only if that
room's registry entry has a nonempty `doors` list (`has_doors`); the
`entries` field is not consulted.  In particular a room whose `doors` list is
empty or absent never yields a Door step, and every Door step sits right
after the Navigation step into its room. -/
theorem door_emitted_iff_doors_nonempty (rooms : List (String × RoomJson))
    (wps : List Waypoint) (target : Option String) (iw : Bool) :
    (∀ i s1 r, (build_agent_plan iw rooms wps target).get? i = some s1 →
       step_is_nav_to r s1 →
       (has_doors rooms r = true ↔
         ∃ s2, (build_agent_plan iw rooms wps target).get? (i + 1) = some s2
           ∧ step_is_door_for r s2))
    ∧ (∀ i s2 r, (build_agent_plan iw rooms wps target).get? i = some s2 →
       step_is_door_for r s2 →
       has_doors rooms r = true
       ∧ ∃ j s1, i = j + 1
           ∧ (build_agent_plan iw rooms wps target).get? j = some s1
           ∧ step_is_nav_to r s1) := by
  have hchain := build_agent_plan_chain rooms wps target iw
  have hidx := List.chain'_iff_get.mp hchain
  constructor
  · intro i s1 r hget hnav
    obtain ⟨hlt, hgeteq⟩ := List.get?_eq_some.mp hget
    have hi1 : i < (build_agent_plan iw rooms wps target).length - 1 := by
      by_contra hcon
      have hieq : i = (build_agent_plan iw rooms wps target).length - 1 := by omega
      obtain ⟨n, ro, hlast⟩ := build_agent_plan_getLast_scan rooms wps target iw
      rw [List.getLast?_eq_get? _, ← hieq, hget] at hlast
      injection hlast with h2
      rw [h2] at hnav
      exact hnav
    have hp := hidx i hi1
    rw [hgeteq] at hp
    constructor
    · intro hd
      refine ⟨(build_agent_plan iw rooms wps target).get ⟨i + 1, by omega⟩,
        (List.get?_eq_get (by omega)), (hp.2 r hnav).mp hd⟩
    · rintro ⟨s2, hs2, hdoor⟩
      have hs2' : s2 = (build_agent_plan iw rooms wps target).get ⟨i + 1, by omega⟩ := by
        rw [List.get?_eq_get (show i + 1 < (build_agent_plan iw rooms wps target).length
          by omega)] at hs2
        injection hs2 with h2
        exact h2.symm
      rw [hs2'] at hdoor
      exact (hp.2 r hnav).mpr hdoor
  · intro i s2 r hget hdoor
    obtain ⟨hlt, hgeteq⟩ := List.get?_eq_some.mp hget
    cases i with
    | zero =>
      have hhead : (build_agent_plan iw rooms wps target).head? = some s2 := by
        rw [← List.get?_zero]
        exact hget
      exact absurd hdoor (build_agent_plan_head_not_door rooms wps target iw s2 hhead r)
    | succ j =>
      have hj : j < (build_agent_plan iw rooms wps target).length - 1 := by omega
      have hp := hidx j hj
      rw [hgeteq] at hp
      obtain ⟨hnav, hd⟩ := hp.1 r hdoor
      exact ⟨hd, j, (build_agent_plan iw rooms wps target).get ⟨j, by omega⟩, rfl,
        List.get?_eq_get (by omega), hnav⟩

/-- C5 counterexample: roomB's registry entry lists a door/entry coordinate
(an entry), and the compiled mission navigates into roomB, yet no Door step is
emitted anywhere in the plan — `has_doors` consults only the `doors` field —
refuting the "door/entry" reading of the claim. -/
theorem door_for_entries_only_room_cex :
    (match c5_rooms.lookup "roomB" with
     | some r => add_xy_or_list r.doors ++ add_xy_or_list r.entries
     | none => []) ≠ []
    ∧ (build_agent_plan false c5_rooms c5_wps none).get? 0
        = some (AgentStep.nav 1 (some "roomA") (0, 0) (some "roomB") (4, 0) true)
    ∧ (build_agent_plan false c5_rooms c5_wps none).filter is_door_step = [] := by
  decide

/-- Witness for the amended C5: with roomB's `doors` nonempty, the step right
after the Navigation into roomB is its Door step. -/
theorem door_emitted_iff_doors_nonempty_witness :
    ∃ s2, (build_agent_plan false c5_rooms_with_door c5_wps none).get? 1 = some s2
      ∧ step_is_door_for (some "roomB") s2 := by
  have h := (door_emitted_iff_doors_nonempty c5_rooms_with_door c5_wps none false).1 0
    (AgentStep.nav 1 (some "roomA") (0, 0) (some "roomB") (4, 0) true) (some "roomB")
    (by decide) rfl
  exact h.mp (by decide)

/-- Integer `range(lo, hi)` membership. -/
theorem int_range_mem (lo hi x : Int) : x ∈ int_range lo hi ↔ lo ≤ x ∧ x < hi := by
  unfold int_range
  simp only [List.mem_map, List.mem_range, Int.ofNat_eq_natCast]
  constructor
  · rintro ⟨i, hi2, rfl⟩
    omega
  · intro h
    refine ⟨(x - lo).toNat, by omega, by omega⟩

/-- Membership in the validated target list: exactly the declared door/entry
coordinates of the room that are in bounds and carry grid code 3 or 8. -/
theorem collect_target_cells_mem (rooms : List (String × RoomJson)) (grid : List (List Int))
    (room_name : String) (c : Int × Int) :
    c ∈ collect_target_cells rooms grid room_name ↔
      (c ∈ (match rooms.lookup room_name with
            | some r => add_xy_or_list r.doors ++ add_xy_or_list r.entries
            | none => [])
       ∧ 0 ≤ c.1 ∧ c.1 < (grid_width grid : Int) ∧ 0 ≤ c.2 ∧ c.2 < (grid_height grid : Int)
       ∧ (grid_at grid c.1 c.2 = 3 ∨ grid_at grid c.1 c.2 = 8)) := by
  unfold collect_target_cells
  rw [List.mem_filter]
  simp only [decide_eq_true_eq]

/-- Membership in the bbox fallback list: exactly the in-bounds cells of the
room's (well-formed) bbox whose grid code is 0, 3 or 8. -/
theorem bbox_walkable_cells_mem (rooms : List (String × RoomJson)) (grid : List (List Int))
    (room_name : String) (c : Int × Int) :
    c ∈ bbox_walkable_cells rooms grid room_name ↔
      ∃ r x1 y1 x2 y2, rooms.lookup room_name = some r ∧ r.bbox = [x1, y1, x2, y2]
        ∧ x1 ≤ c.1 ∧ c.1 < x2 ∧ y1 ≤ c.2 ∧ c.2 < y2
        ∧ 0 ≤ c.2 ∧ c.2 < (grid_height grid : Int) ∧ 0 ≤ c.1 ∧ c.1 < (grid_width grid : Int)
        ∧ (grid_at grid c.1 c.2 = 0 ∨ grid_at grid c.1 c.2 = 3 ∨ grid_at grid c.1 c.2 = 8) := by
  unfold bbox_walkable_cells
  cases hl : rooms.lookup room_name with
  | none => simp [hl]
  | some r =>
    rcases hbb : r.bbox with _ | ⟨x1, _ | ⟨y1, _ | ⟨x2, _ | ⟨y2, _ | ⟨z, zs⟩⟩⟩⟩⟩ <;>
      simp only [hl, hbb]
    case cons.cons.cons.cons.nil =>
      rw [List.mem_flatMap]
      constructor
      · rintro ⟨yy, hyy, hc⟩
        rw [List.mem_filterMap] at hc
        obtain ⟨xx, hxx, hsome⟩ := hc
        rw [int_range_mem] at hyy
        rw [int_range_mem] at hxx
        split at hsome
        · injection hsome with h2
          rw [← h2]
          rename_i hcond
          refine ⟨r, x1, y1, x2, y2, rfl, hbb, ?_⟩
          dsimp only
          tauto
        · exact absurd hsome (by simp)
      · rintro ⟨r2, a1, b1, a2, b2, hr2, hbb2, h1, h2, h3, h4, h5, h6, h7, h8, h9⟩
        injection hr2 with hr2
        rw [← hr2] at hbb2
        rw [hbb2] at hbb
        injection hbb with e1 hbb
        injection hbb with e2 hbb
        injection hbb with e3 hbb
        injection hbb with e4 hbb
        subst e1
        subst e2
        subst e3
        subst e4
        refine ⟨c.2, ?_, ?_⟩
        · rw [int_range_mem]
          exact ⟨h3, h4⟩
        · rw [List.mem_filterMap]
          refine ⟨c.1, ?_, ?_⟩
          · rw [int_range_mem]
            exact ⟨h1, h2⟩
          · rw [if_pos ⟨h5, h6, h7, h8, h9⟩]
    all_goals
      constructor
      · intro hmem
        exact absurd hmem (by simp)
      · rintro ⟨r2, a1, b1, a2, b2, hr2, hbb2, hrest⟩
        injection hr2 with hr2
        rw [← hr2] at hbb2
        rw [hbb] at hbb2
        simp at hbb2

/-- The best-path loop returns nothing exactly when it started with nothing
and the search fails for every candidate target. -/
theorem find_best_path_none_iff
    (astar : (Int × Int) → (Int × Int) → List (Option String) → List (Int × Int))
    (start : Int × Int) (allowed : List (Option String)) :
    ∀ (ts : List (Int × Int)) (best : Option (List (Int × Int))),
      (find_best_path astar start allowed ts best = none ↔
        (best = none ∧ ∀ t ∈ ts, astar start t allowed = [])) := by
  intro ts
  induction ts with
  | nil =>
    intro best
    simp [find_best_path]
  | cons t ts ih =>
    intro best
    simp only [find_best_path]
    rw [ih]
    cases best with
    | none =>
      by_cases hp : astar start t allowed = []
      · simp [hp]
      · simp [hp]
    | some b =>
      dsimp only
      split <;> simp

/-- C3: target selection and failure of `PathPlanner.plan`.  (i) The
validated target list holds exactly the door/entry coordinates declared for
the goal room whose grid tile is in bounds and carries door/entry code 3/8 —
a declared coordinate whose tile disagrees is excluded; (ii) the fallback
candidate list holds exactly the free/door/entry cells inside the room's
bbox; (iii) with a grid loaded, `plan` returns none exactly when the
effective candidate list — the validated targets, or the bbox fallback when
none validate — is empty, or no candidate yields a path under the room
constraints.  The A* search enters as an explicit function argument `astar`
(its internal heap ordering is floating-point-driven; `plan` never inspects
more than emptiness and length of its results). -/
theorem plan_targets_and_failure
    (astar : (Int × Int) → (Int × Int) → List (Option String) → List (Int × Int))
    (p : PathPlannerState) (start : Int × Int) (goal_room : String)
    (g : List (List Int)) (hg : p.grid = some g) :
    (∀ c, c ∈ collect_target_cells p.rooms g goal_room ↔
      (c ∈ (match p.rooms.lookup goal_room with
            | some r => add_xy_or_list r.doors ++ add_xy_or_list r.entries
            | none => [])
       ∧ 0 ≤ c.1 ∧ c.1 < (grid_width g : Int) ∧ 0 ≤ c.2 ∧ c.2 < (grid_height g : Int)
       ∧ (grid_at g c.1 c.2 = 3 ∨ grid_at g c.1 c.2 = 8)))
    ∧ (∀ c, c ∈ bbox_walkable_cells p.rooms g goal_room ↔
      ∃ r x1 y1 x2 y2, p.rooms.lookup goal_room = some r ∧ r.bbox = [x1, y1, x2, y2]
        ∧ x1 ≤ c.1 ∧ c.1 < x2 ∧ y1 ≤ c.2 ∧ c.2 < y2
        ∧ 0 ≤ c.2 ∧ c.2 < (grid_height g : Int) ∧ 0 ≤ c.1 ∧ c.1 < (grid_width g : Int)
        ∧ (grid_at g c.1 c.2 = 0 ∨ grid_at g c.1 c.2 = 3 ∨ grid_at g c.1 c.2 = 8))
    ∧ (plan astar p start goal_room = none ↔
        ((if collect_target_cells p.rooms g goal_room = []
          then bbox_walkable_cells p.rooms g goal_room
          else collect_target_cells p.rooms g goal_room) = []
         ∨ ∀ t ∈ (if collect_target_cells p.rooms g goal_room = []
                  then bbox_walkable_cells p.rooms g goal_room
                  else collect_target_cells p.rooms g goal_room),
             astar start t [some "Open Space", some "hallway", some goal_room, none] = [])) := by
  refine ⟨fun c => collect_target_cells_mem p.rooms g goal_room c,
    fun c => bbox_walkable_cells_mem p.rooms g goal_room c, ?_⟩
  rw [plan, hg]
  dsimp only
  by_cases h0 : (if collect_target_cells p.rooms g goal_room = []
      then bbox_walkable_cells p.rooms g goal_room
      else collect_target_cells p.rooms g goal_room) = []
  · rw [if_pos h0]
    simp [h0]
  · rw [if_neg h0]
    cases hf : find_best_path astar start
        [some "Open Space", some "hallway", some goal_room, none]
        (if collect_target_cells p.rooms g goal_room = []
         then bbox_walkable_cells p.rooms g goal_room
         else collect_target_cells p.rooms g goal_room) none with
    | none =>
      simp only [hf]
      have hall := (find_best_path_none_iff astar start _ _ none).mp hf
      exact ⟨fun _ => Or.inr hall.2, fun _ => trivial⟩
    | some best =>
      simp only [hf]
      constructor
      · intro hcon
        exact absurd hcon (by simp)
      · rintro (h1 | h2)
        · exact absurd h1 h0
        · have hn := (find_best_path_none_iff astar start _ _ none).mpr ⟨rfl, h2⟩
          rw [hf] at hn
          exact absurd hn (by simp)

/-- Witness for C3: the grid-confirmed declared door is targeted, the
grid-contradicted one is excluded, and with a search that finds no path the
planner reports failure. -/
theorem plan_targets_and_failure_witness :
    ((2, 0) ∈ collect_target_cells c3_rooms c3_grid "roomB")
    ∧ ¬ ((0, 0) ∈ collect_target_cells c3_rooms c3_grid "roomB")
    ∧ plan (fun _ _ _ => []) c3_planner (0, 2) "roomB" = none := by
  have h := plan_targets_and_failure (fun _ _ _ => []) c3_planner (0, 2) "roomB" c3_grid rfl
  refine ⟨(h.1 (2, 0)).mpr (by decide), ?_, ?_⟩
  · intro hmem
    have h2 := (h.1 (0, 0)).mp hmem
    exact absurd h2.2.2.2.2.2 (by decide)
  · exact h.2.2.mpr (Or.inr (fun t _ => rfl))

end RoomMapping
